import Mathlib

/-!
Verification of the pairs-trading engine in
`AlpacaTutorial/Alpaca30/pairs_trading_bot.py` against its natural-language
specification.

The embedding models prices and statistics over `ℚ`.  External collaborators
(the statsmodels `coint` routine, the square-root primitive used by
`pandas.Series.rolling(...).std()`, the brokerage order API and broker
positions) are modelled as explicit oracle inputs, since the repository only
consumes their results.  Fallible paths of the Python code are modelled with
`Option`/explicit result records; a pandas NaN produced by an incomplete
rolling window is modelled as `none`.
-/

namespace PairsTrading

/-- The two non-flat position modes stored in `state['position']`
(`'long_spread'` / `'short_spread'`); `none` models the JSON `null` (FLAT). -/
inductive SpreadMode
  | long_spread
  | short_spread
  deriving DecidableEq, Repr

/-- The persisted bot state dictionary (`load_state` / `save_state`,
pairs_trading_bot.py lines 74-97): keys `position`, `entry_z_score`,
`entry_time`, `symbol_a`, `symbol_b`, each nullable. -/
structure BotState where
  position : Option SpreadMode
  entry_z_score : Option ℚ
  entry_time : Option String
  symbol_a : Option String
  symbol_b : Option String
  deriving DecidableEq, Repr

/-- The default state returned by `load_state` when no state file exists
(lines 82-88). -/
def initial_state : BotState := ⟨none, none, none, none, none⟩

/-! ## Cointegration validator (lines 145-169)

`statsmodels.coint` is external: we model a run of it as `Option ℚ` —
`some p` is a successful test returning p-value `p`, `none` is any exception
raised inside the `try` block. -/

/-- `test_cointegration` (lines 145-169): on success the verdict is
`p_value < 0.05`; any exception is caught and `(False, 1.0)` is returned.
The Lean function is total, mirroring the fact that the Python function
never propagates an exception. -/
def test_cointegration (coint_outcome : Option ℚ) : Bool × ℚ :=
  match coint_outcome with
  | some p => (decide (p < 5/100), p)
  | none => (false, 1)

/-! ## Spread model (lines 172-208) -/

/-- `spread = series_a - series_b` (line 185), on timestamp-aligned series;
the inner join of `main` (lines 412-413) is modelled by positional pairing,
so the spread has the length of the shorter series. -/
def spread_series (a b : List ℚ) : List ℚ :=
  List.zipWith (fun x y => x - y) a b

/-- The trailing window of length `w` ending at the most recent observation. -/
def window_last (l : List ℚ) (w : ℕ) : List ℚ :=
  l.drop (l.length - w)

/-- `spread.rolling(window=lookback).mean().iloc[-1]` (lines 188, 193):
`none` models the NaN produced when fewer than `lookback` observations
are available (pandas keeps `min_periods = window`). -/
def rolling_mean_last (l : List ℚ) (w : ℕ) : Option ℚ :=
  if 1 ≤ w ∧ w ≤ l.length then some ((window_last l w).sum / (w : ℚ)) else none

/-- The rolling sample variance (ddof = 1, the pandas default) of the trailing
window; `none` models the NaN cases (incomplete window, or `w = 1` where the
`n - 1` denominator degenerates). -/
def rolling_var_last (l : List ℚ) (w : ℕ) : Option ℚ :=
  if 2 ≤ w ∧ w ≤ l.length then
    some (((window_last l w).map
      (fun x => (x - (window_last l w).sum / (w : ℚ)) ^ 2)).sum / ((w - 1 : ℕ) : ℚ))
  else none

/-- The z-score branch (lines 196-200): `z = (spread - mean) / std` when
`std > 0`, else `0.0`.  A NaN `std` (`none`) fails the `current_std > 0`
comparison in Python, giving `0.0`; when `std` is a number the rolling mean
is a number as well, so the wildcard row is the NaN row. -/
def z_score_of (cs : ℚ) (cm cstd : Option ℚ) : ℚ :=
  match cm, cstd with
  | some m, some sd => if 0 < sd then (cs - m) / sd else 0
  | _, _ => 0

/-- The result dictionary of `calculate_spread_stats` (lines 202-208); the
`spread_series` entry is recoverable from the inputs and omitted. -/
structure SpreadSample where
  spread : ℚ
  mean : Option ℚ
  std : Option ℚ
  z_score : ℚ
  deriving DecidableEq, Repr

/-- `calculate_spread_stats` (lines 172-208).  `sq` is the square-root
primitive applied by `pandas .std()` to the rolling variance.  The function
returns `none` exactly when `spread.iloc[-1]` raises, i.e. when the aligned
spread is empty; otherwise it always returns a sample (it has no
insufficient-data failure of its own). -/
def calculate_spread_stats (sq : ℚ → ℚ) (a b : List ℚ) (lookback : ℕ) :
    Option SpreadSample :=
  match (spread_series a b).getLast? with
  | none => none
  | some cs =>
      some ⟨cs,
        rolling_mean_last (spread_series a b) lookback,
        (rolling_var_last (spread_series a b) lookback).map sq,
        z_score_of cs (rolling_mean_last (spread_series a b) lookback)
          ((rolling_var_last (spread_series a b) lookback).map sq)⟩

/-! ## Position sizing and trade execution (lines 235-329) -/

/-- `calculate_position_size` (lines 235-246): dollars per leg. -/
def calculate_position_size (account_value risk_per_trade : ℚ) : ℚ :=
  account_value * risk_per_trade

/-- Python `int(q)`: truncation toward zero. -/
def truncQ (q : ℚ) : ℤ :=
  if 0 ≤ q then ⌊q⌋ else -⌊-q⌋

inductive OrderSide
  | buy
  | sell
  deriving DecidableEq, Repr

/-- A submitted market order (`MarketOrderRequest`): symbol, whole-share
quantity and side. -/
structure Order where
  symbol : String
  qty : ℤ
  side : OrderSide
  deriving DecidableEq, Repr

/-- The distinct failure paths of `execute_pairs_trade`, distinguished by
the log message emitted before `return False`. -/
inductive TradeFailure
  | couldNotGetPrices
  | positionTooSmall
  | orderSubmitError
  deriving DecidableEq, Repr

/-- Outcome of an executor call: the returned boolean, which failure path
produced a `False`, and the orders actually submitted to the broker. -/
structure ExecResult where
  success : Bool
  failure : Option TradeFailure
  placed : List Order
  deriving DecidableEq, Repr

/-- `execute_pairs_trade` (lines 249-329).  `price_a`/`price_b` are the
`get_current_price` results (`none` = `None`); note Python's `if not price`
also treats a `0.0` price as missing.  `submit_a_ok`/`submit_b_ok` model
whether each `submit_order` call returns normally; an exception on either
is caught by the outer `try`, yielding `False`, and a failure on leg B
still leaves the already-submitted leg A order placed. -/
def execute_pairs_trade (symA symB : String) (side : SpreadMode)
    (position_size : ℚ) (price_a price_b : Option ℚ)
    (submit_a_ok submit_b_ok : Bool) : ExecResult :=
  match price_a, price_b with
  | some pa, some pb =>
    if pa = 0 ∨ pb = 0 then ⟨false, some .couldNotGetPrices, []⟩
    else
      if truncQ (position_size / pa) < 1 ∨ truncQ (position_size / pb) < 1 then
        ⟨false, some .positionTooSmall, []⟩
      else
        match side with
        | .long_spread =>
          if !submit_a_ok then ⟨false, some .orderSubmitError, []⟩
          else if !submit_b_ok then
            ⟨false, some .orderSubmitError,
              [⟨symA, truncQ (position_size / pa), .buy⟩]⟩
          else
            ⟨true, none,
              [⟨symA, truncQ (position_size / pa), .buy⟩,
               ⟨symB, truncQ (position_size / pb), .sell⟩]⟩
        | .short_spread =>
          if !submit_a_ok then ⟨false, some .orderSubmitError, []⟩
          else if !submit_b_ok then
            ⟨false, some .orderSubmitError,
              [⟨symA, truncQ (position_size / pa), .sell⟩]⟩
          else
            ⟨true, none,
              [⟨symA, truncQ (position_size / pa), .sell⟩,
               ⟨symB, truncQ (position_size / pb), .buy⟩]⟩
  | _, _ => ⟨false, some .couldNotGetPrices, []⟩

/-- `close_pairs_position` (lines 332-370).  Each leg independently fetches
the broker position (`none` = no position / fetch raised) and submits a
closing order; any exception in a leg is swallowed by `except: pass`, and
the function returns `True` unconditionally. -/
def close_pairs_position (symA symB : String) (qa qb : Option ℤ)
    (close_a_ok close_b_ok : Bool) : ExecResult :=
  ⟨true, none,
    (match qa with
     | some q => if close_a_ok then
         [⟨symA, (q.natAbs : ℤ), if 0 < q then .sell else .buy⟩] else []
     | none => []) ++
    (match qb with
     | some q => if close_b_ok then
         [⟨symB, (q.natAbs : ℤ), if 0 < q then .sell else .buy⟩] else []
     | none => [])⟩

/-! ## Main trading cycle (lines 373-532) -/

/-- Hard-coded configuration of `main` (lines 388-393). -/
def SYMBOL_A : String := "KO"

def SYMBOL_B : String := "PEP"

def Z_SCORE_ENTRY : ℚ := 2

def Z_SCORE_EXIT : ℚ := 5/10

def RISK_PER_TRADE : ℚ := 2/100

/-- The external world observed by one run of `main`: fetched price data,
the cointegration test outcome, the std square-root primitive, account
equity, broker position probes (`get_open_position` succeeding or raising),
current prices, order submission outcomes and the clock. -/
structure CycleEnv where
  data_a : List ℚ
  data_b : List ℚ
  coint_pvalue : Option ℚ
  sqrtQ : ℚ → ℚ
  account_value : ℚ
  has_position_a : Bool
  has_position_b : Bool
  price_a : Option ℚ
  price_b : Option ℚ
  submit_a_ok : Bool
  submit_b_ok : Bool
  broker_qty_a : Option ℤ
  broker_qty_b : Option ℤ
  close_submit_a_ok : Bool
  close_submit_b_ok : Bool
  now : String

/-- Which branch of `main`'s trading logic a cycle ended in. -/
inductive Decision
  | abortNoData
  | abortInsufficient
  | crashed
  | exitPosition
  | holdInPosition
  | closeOrphan
  | enterShort
  | enterLong
  | holdNoSignal
  deriving DecidableEq, Repr

/-- The observable effect of one cycle: the branch taken, the in-memory
state at the end, every state written by `save_state`, and every order
submitted to the broker. -/
structure StepResult where
  decision : Decision
  new_state : BotState
  saved : List BotState
  orders : List Order
  deriving DecidableEq, Repr

/-- The exit test of lines 472 and 480, as the code writes it:
a `long_spread` exits when `z <= Z_SCORE_EXIT`, a `short_spread` when
`z >= -Z_SCORE_EXIT`. -/
def exit_signal (z_exit : ℚ) (mode : SpreadMode) (z : ℚ) : Bool :=
  match mode with
  | .long_spread => decide (z ≤ z_exit)
  | .short_spread => decide (-z_exit ≤ z)

/-- Modelled from the spec: the Signal Evaluator exit rule of section 4.3
("If state.mode = LONG_SPREAD: EXIT when zScore ≥ −exitThreshold;
if state.mode = SHORT_SPREAD: EXIT when zScore ≤ exitThreshold"), stated
here only to compare with the code's `exit_signal`. -/
def exit_signal_spec (z_exit : ℚ) (mode : SpreadMode) (z : ℚ) : Bool :=
  match mode with
  | .long_spread => decide (-z_exit ≤ z)
  | .short_spread => decide (z ≤ z_exit)

/-- The trading logic of `main` (lines 463-529) after the z-score has been
computed, parameterized by the entry/exit thresholds it compares against
(instantiated with the hard-coded constants in `trading_step`). -/
def trading_step_with (z_entry z_exit : ℚ) (env : CycleEnv) (state : BotState)
    (current_z : ℚ) : StepResult :=
  if env.has_position_a || env.has_position_b then
    match state.position with
    | some mode =>
      if exit_signal z_exit mode current_z then
        ⟨.exitPosition,
          { state with position := none, entry_z_score := none, entry_time := none },
          [{ state with position := none, entry_z_score := none, entry_time := none }],
          (close_pairs_position SYMBOL_A SYMBOL_B env.broker_qty_a env.broker_qty_b
            env.close_submit_a_ok env.close_submit_b_ok).placed⟩
      else
        ⟨.holdInPosition, state, [], []⟩
    | none =>
      ⟨.closeOrphan, state, [],
        (close_pairs_position SYMBOL_A SYMBOL_B env.broker_qty_a env.broker_qty_b
          env.close_submit_a_ok env.close_submit_b_ok).placed⟩
  else
    if z_entry ≤ current_z then
      match execute_pairs_trade SYMBOL_A SYMBOL_B .short_spread
          (calculate_position_size env.account_value RISK_PER_TRADE)
          env.price_a env.price_b env.submit_a_ok env.submit_b_ok with
      | r =>
        if r.success then
          ⟨.enterShort,
            ⟨some .short_spread, some current_z, some env.now, some SYMBOL_A, some SYMBOL_B⟩,
            [⟨some .short_spread, some current_z, some env.now, some SYMBOL_A, some SYMBOL_B⟩],
            r.placed⟩
        else
          ⟨.enterShort, state, [], r.placed⟩
    else if current_z ≤ -z_entry then
      match execute_pairs_trade SYMBOL_A SYMBOL_B .long_spread
          (calculate_position_size env.account_value RISK_PER_TRADE)
          env.price_a env.price_b env.submit_a_ok env.submit_b_ok with
      | r =>
        if r.success then
          ⟨.enterLong,
            ⟨some .long_spread, some current_z, some env.now, some SYMBOL_A, some SYMBOL_B⟩,
            [⟨some .long_spread, some current_z, some env.now, some SYMBOL_A, some SYMBOL_B⟩],
            r.placed⟩
        else
          ⟨.enterLong, state, [], r.placed⟩
    else
      ⟨.holdNoSignal, state, [], []⟩

/-- `main`'s trading logic with the hard-coded thresholds
`Z_SCORE_ENTRY = 2.0`, `Z_SCORE_EXIT = 0.5`. -/
def trading_step (env : CycleEnv) (state : BotState) (current_z : ℚ) : StepResult :=
  trading_step_with Z_SCORE_ENTRY Z_SCORE_EXIT env state current_z

/-- One full run of `main` (lines 373-532): abort on empty data, abort when
the aligned series has fewer than 60 points (lines 415-417), run the
cointegration test (its verdict is only logged, lines 424-431), compute the
spread statistics with `lookback=60` (line 434) and take the trading step. -/
def run_cycle (env : CycleEnv) (state : BotState) : StepResult :=
  if env.data_a.isEmpty || env.data_b.isEmpty then
    ⟨.abortNoData, state, [], []⟩
  else if Nat.min env.data_a.length env.data_b.length < 60 then
    ⟨.abortInsufficient, state, [], []⟩
  else
    let _verdict := test_cointegration env.coint_pvalue
    match calculate_spread_stats env.sqrtQ env.data_a env.data_b 60 with
    | none => ⟨.crashed, state, [], []⟩
    | some stats => trading_step env state stats.z_score

/-! ## State persistence (lines 74-97)

`save_state` serializes the state dict with `json.dump`; `load_state` reads
it back with `json.load`, falling back to the default dict when the file is
missing or unreadable.  JSON values actually occurring in the state file are
modelled by `JValue`; the file content is the JSON object, modelled as a
key/value list. -/

inductive JValue
  | null
  | str (s : String)
  | num (q : ℚ)
  deriving DecidableEq, Repr

def mode_to_json : Option SpreadMode → JValue
  | none => .null
  | some .long_spread => .str "long_spread"
  | some .short_spread => .str "short_spread"

def opt_num_to_json : Option ℚ → JValue
  | none => .null
  | some q => .num q

def opt_str_to_json : Option String → JValue
  | none => .null
  | some s => .str s

/-- `save_state` (lines 91-97): the JSON object written to the state file. -/
def save_state (s : BotState) : List (String × JValue) :=
  [("position", mode_to_json s.position),
   ("entry_z_score", opt_num_to_json s.entry_z_score),
   ("entry_time", opt_str_to_json s.entry_time),
   ("symbol_a", opt_str_to_json s.symbol_a),
   ("symbol_b", opt_str_to_json s.symbol_b)]

/-- The default dict of `load_state` (lines 82-88). -/
def default_state_json : List (String × JValue) :=
  [("position", .null), ("entry_z_score", .null), ("entry_time", .null),
   ("symbol_a", .null), ("symbol_b", .null)]

/-- `load_state` (lines 74-88): `none` models a missing or unreadable state
file, in which case the default dict is returned. -/
def load_state (file : Option (List (String × JValue))) : List (String × JValue) :=
  match file with
  | some j => j
  | none => default_state_json

def jlookup : List (String × JValue) → String → Option JValue
  | [], _ => none
  | (k, v) :: rest, key => if k = key then some v else jlookup rest key

def decode_mode : JValue → Option (Option SpreadMode)
  | .null => some none
  | .str "long_spread" => some (some .long_spread)
  | .str "short_spread" => some (some .short_spread)
  | _ => none

def decode_opt_num : JValue → Option (Option ℚ)
  | .null => some none
  | .num q => some (some q)
  | _ => none

def decode_opt_str : JValue → Option (Option String)
  | .null => some none
  | .str s => some (some s)
  | _ => none

/-- Reads a loaded state dict back into a `BotState`; every state dict that
the bot itself ever writes parses successfully. -/
def parse_state (j : List (String × JValue)) : Option BotState :=
  match jlookup j "position", jlookup j "entry_z_score", jlookup j "entry_time",
        jlookup j "symbol_a", jlookup j "symbol_b" with
  | some jp, some jz, some jt, some ja, some jb =>
    match decode_mode jp, decode_opt_num jz, decode_opt_str jt,
          decode_opt_str ja, decode_opt_str jb with
    | some p, some z, some t, some a, some b => some ⟨p, z, t, a, b⟩
    | _, _, _, _, _ => none
  | _, _, _, _, _ => none

/-! ## Concrete scenario data

The square-root oracle used by the concrete scenarios: exact at the two
variance values (4 and 0) they produce. -/

def sqrt_on_four : ℚ → ℚ := fun q => if q = 4 then 2 else 0

def zeros60 : List ℚ := List.replicate 60 0

/-- A 60-point close series whose spread against `zeros60` has rolling mean
0, sample variance 4 (so std 2) and last value -2, giving z-score -1. -/
def series_z_neg_one : List ℚ :=
  [4, -4] ++ List.replicate 25 2 ++ List.replicate 24 (-2) ++
    [1, 1, -1, -1] ++ [0, 0, 0, 0] ++ [-2]

/-- A 60-point close series whose spread against `zeros60` has rolling mean
0, sample variance 4 (so std 2) and last value 4, giving z-score 2. -/
def series_z_two : List ℚ :=
  [-4] ++ List.replicate 25 2 ++ List.replicate 25 (-2) ++
    [1, 1, -1, -1] ++ [0, 0, 0, 0] ++ [4]

/-- Persisted state while a long-spread position is open. -/
def long_state : BotState :=
  ⟨some .long_spread, some (-5/2), some "t-1", some "KO", some "PEP"⟩

/-- Persisted state while a short-spread position is open. -/
def short_state : BotState :=
  ⟨some .short_spread, some (5/2), some "t-1", some "KO", some "PEP"⟩

/-- Scenario for C1: an open long-spread position, current z-score -1
(computed from `series_z_neg_one`), far below the spec's long exit band. -/
def c1_env : CycleEnv where
  data_a := series_z_neg_one
  data_b := zeros60
  coint_pvalue := some (1/100)
  sqrtQ := sqrt_on_four
  account_value := 10000
  has_position_a := true
  has_position_b := true
  price_a := some 60
  price_b := some 205
  submit_a_ok := true
  submit_b_ok := true
  broker_qty_a := some 3
  broker_qty_b := some (-3)
  close_submit_a_ok := true
  close_submit_b_ok := true
  now := "t0"

/-- Scenario for C2: flat, current z-score 2 (from `series_z_two`), the
cointegration test succeeds with p-value 1 (verdict: not cointegrated). -/
def c2_env : CycleEnv where
  data_a := series_z_two
  data_b := zeros60
  coint_pvalue := some 1
  sqrtQ := sqrt_on_four
  account_value := 10000
  has_position_a := false
  has_position_b := false
  price_a := some 50
  price_b := some 40
  submit_a_ok := true
  submit_b_ok := true
  broker_qty_a := none
  broker_qty_b := none
  close_submit_a_ok := true
  close_submit_b_ok := true
  now := "t0"

/-- Scenario for C3 (entry side): flat, every leg-B submission raises. -/
def c3_entry_env : CycleEnv where
  data_a := series_z_two
  data_b := zeros60
  coint_pvalue := some (1/100)
  sqrtQ := sqrt_on_four
  account_value := 10000
  has_position_a := false
  has_position_b := false
  price_a := some 50
  price_b := some 40
  submit_a_ok := true
  submit_b_ok := false
  broker_qty_a := none
  broker_qty_b := none
  close_submit_a_ok := true
  close_submit_b_ok := true
  now := "t0"

/-- Scenario for C3 (exit side): open position, z-score 0 (zero spread),
both closing submissions raise. -/
def c3_exit_env : CycleEnv where
  data_a := zeros60
  data_b := zeros60
  coint_pvalue := some (1/100)
  sqrtQ := sqrt_on_four
  account_value := 10000
  has_position_a := true
  has_position_b := true
  price_a := some 60
  price_b := some 205
  submit_a_ok := true
  submit_b_ok := true
  broker_qty_a := some 3
  broker_qty_b := some (-3)
  close_submit_a_ok := false
  close_submit_b_ok := false
  now := "t0"

/-- Scenario for C4 and C8: broker reports no open positions, zero spread
(z-score 0), entries would succeed if signalled. -/
def c4_env : CycleEnv where
  data_a := zeros60
  data_b := zeros60
  coint_pvalue := some (1/100)
  sqrtQ := sqrt_on_four
  account_value := 10000
  has_position_a := false
  has_position_b := false
  price_a := some 50
  price_b := some 40
  submit_a_ok := true
  submit_b_ok := true
  broker_qty_a := none
  broker_qty_b := none
  close_submit_a_ok := true
  close_submit_b_ok := true
  now := "t0"

/-! # Theorems -/

/-- Case analysis of the z-score branch (lines 196-200). -/
theorem z_score_of_cases (cs : ℚ) (cm cstd : Option ℚ) :
    (∀ m sd, cm = some m → cstd = some sd → 0 < sd →
      z_score_of cs cm cstd = (cs - m) / sd)
    ∧ (∀ sd, cstd = some sd → sd ≤ 0 → z_score_of cs cm cstd = 0)
    ∧ (cstd = none → z_score_of cs cm cstd = 0) := by
  refine ⟨?_, ?_, ?_⟩
  · rintro m sd rfl rfl h
    simp [z_score_of, if_pos h]
  · rintro sd rfl h
    cases cm with
    | none => rfl
    | some m => simp [z_score_of, if_neg (not_lt.mpr h)]
  · rintro rfl
    cases cm <;> rfl

/-- C5: for every aligned series pair, whenever the returned rolling std is
a number `sd > 0` the z-score equals `(spread - mean) / sd` exactly; when
the rolling std is zero/non-positive, or NaN (`none`), the z-score is `0`
and no division is performed. -/
theorem c5_zscore_formula (sq : ℚ → ℚ) (a b : List ℚ) (lookback : ℕ)
    (s : SpreadSample) (hs : calculate_spread_stats sq a b lookback = some s) :
    (∀ m sd, s.mean = some m → s.std = some sd → 0 < sd →
      s.z_score = (s.spread - m) / sd)
    ∧ (∀ sd, s.std = some sd → sd ≤ 0 → s.z_score = 0)
    ∧ (s.std = none → s.z_score = 0) := by
  unfold calculate_spread_stats at hs
  cases h : (spread_series a b).getLast? with
  | none => rw [h] at hs; cases hs
  | some cs =>
    rw [h] at hs
    injection hs with hs
    subst hs
    exact z_score_of_cases cs _ _

/-- Witness for C5 on a concrete window: spread `[0, 2]`, lookback 2, mean 1,
sample variance 2 (std oracle applied: 2), z-score `(2 - 1) / 2 = 1/2`. -/
theorem c5_zscore_formula_witness :
    calculate_spread_stats (fun q => q) [0, 2] [0, 0] 2
        = some ⟨2, some 1, some 2, 1/2⟩
    ∧ ((1:ℚ)/2) = (2 - 1) / 2 := by
  have h : calculate_spread_stats (fun q : ℚ => q) [0, 2] [0, 0] 2
      = some ⟨2, some 1, some 2, 1/2⟩ := by
    norm_num [calculate_spread_stats, spread_series, rolling_mean_last,
      rolling_var_last, window_last, z_score_of]
  exact ⟨h, (c5_zscore_formula (fun q => q) [0, 2] [0, 0] 2 _ h).1 1 2 rfl rfl
    (by norm_num)⟩

/-- C6 counterexample: on a 1-point aligned series with lookback 60,
`calculate_spread_stats` does not fail at all — it returns a full
`SpreadSample` (rolling stats NaN, z-score 0); there is no
`InsufficientDataError` in the code. -/
theorem c6_returns_sample_on_short_input :
    calculate_spread_stats (fun q => q) [2] [1] 60 = some ⟨1, none, none, 0⟩ := by
  norm_num [calculate_spread_stats, spread_series, rolling_mean_last,
    rolling_var_last, window_last, z_score_of]

/-- C6 amended: whenever the aligned spread is non-empty but shorter than
the lookback, `calculate_spread_stats` returns a `SpreadSample` whose
rolling mean/std are NaN (`none`) and whose z-score is 0, instead of
failing. -/
theorem c6_short_input_behavior (sq : ℚ → ℚ) (a b : List ℚ) (lookback : ℕ)
    (hne : spread_series a b ≠ [])
    (hlt : (spread_series a b).length < lookback) :
    calculate_spread_stats sq a b lookback
      = some ⟨(spread_series a b).getLast hne, none, none, 0⟩ := by
  have hm : rolling_mean_last (spread_series a b) lookback = none := by
    unfold rolling_mean_last
    rw [if_neg]
    rintro ⟨-, h2⟩
    exact absurd h2 (Nat.not_le_of_lt hlt)
  have hv : rolling_var_last (spread_series a b) lookback = none := by
    unfold rolling_var_last
    rw [if_neg]
    rintro ⟨-, h2⟩
    exact absurd h2 (Nat.not_le_of_lt hlt)
  unfold calculate_spread_stats
  rw [List.getLast?_eq_getLast _ hne, hm, hv]
  rfl

/-- Witness for the amended C6 on the 2-point series `[2, 3]` vs `[1, 1]`. -/
theorem c6_short_input_behavior_witness :
    spread_series [2, 3] [1, 1] ≠ []
    ∧ (spread_series [2, 3] [1, 1]).length < 60
    ∧ calculate_spread_stats (fun q => q) [2, 3] [1, 1] 60
        = some ⟨2, none, none, 0⟩ := by
  refine ⟨by simp [spread_series], by simp [spread_series], ?_⟩
  have h := c6_short_input_behavior (fun q : ℚ => q) [2, 3] [1, 1] 60
    (by simp [spread_series]) (by simp [spread_series])
  norm_num [spread_series] at h
  exact h

/-- C10: `test_cointegration` is total (it never propagates an exception),
its boolean verdict always equals `p_value < 0.05`, and an internal failure
of the statistical test yields `(False, 1.0)`. -/
theorem c10_cointegration_total (r : Option ℚ) :
    (test_cointegration r).1 = decide ((test_cointegration r).2 < 5/100)
    ∧ test_cointegration none = (false, 1) := by
  refine ⟨?_, rfl⟩
  cases r with
  | none => simp [test_cointegration, show ¬((1:ℚ) < 5/100) by norm_num]
  | some p => rfl

/-- C9: persisting any `BotState` with `save_state` and loading it back
yields the identical state (round-trip identity through the JSON file). -/
theorem c9_state_round_trip (s : BotState) :
    parse_state (load_state (some (save_state s))) = some s := by
  obtain ⟨p, z, t, a, b⟩ := s
  cases p with
  | none => cases z <;> cases t <;> cases a <;> cases b <;> rfl
  | some m => cases m <;> cases z <;> cases t <;> cases a <;> cases b <;> rfl

/-- Python `int()` truncation agrees with mathematical floor on nonnegative
rationals (leg budgets and prices are nonnegative in every entry). -/
theorem truncQ_eq_floor (q : ℚ) (h : 0 ≤ q) : truncQ q = ⌊q⌋ := if_pos h

/-- C7: each leg quantity is `⌊(equity × riskFraction) / price⌋`; if either
quantity is below 1 share the entry fails on the position-too-small path
with no orders placed for either leg; otherwise (with both submissions
succeeding) the two placed orders carry exactly those floored quantities. -/
theorem c7_position_sizing (equity rf pa pb : ℚ) (symA symB : String)
    (side : SpreadMode) (sa sb : Bool) (hpa : 0 < pa) (hpb : 0 < pb)
    (hbudget : 0 ≤ equity * rf) :
    ((⌊equity * rf / pa⌋ < 1 ∨ ⌊equity * rf / pb⌋ < 1) →
      execute_pairs_trade symA symB side (calculate_position_size equity rf)
          (some pa) (some pb) sa sb = ⟨false, some .positionTooSmall, []⟩)
    ∧ (1 ≤ ⌊equity * rf / pa⌋ → 1 ≤ ⌊equity * rf / pb⌋ →
        sa = true → sb = true →
      (execute_pairs_trade symA symB side (calculate_position_size equity rf)
          (some pa) (some pb) sa sb).placed.map Order.qty
        = [⌊equity * rf / pa⌋, ⌊equity * rf / pb⌋]
      ∧ (execute_pairs_trade symA symB side (calculate_position_size equity rf)
          (some pa) (some pb) sa sb).success = true) := by
  have hfa : truncQ (equity * rf / pa) = ⌊equity * rf / pa⌋ :=
    truncQ_eq_floor _ (div_nonneg hbudget hpa.le)
  have hfb : truncQ (equity * rf / pb) = ⌊equity * rf / pb⌋ :=
    truncQ_eq_floor _ (div_nonneg hbudget hpb.le)
  have hane : ¬(pa = 0 ∨ pb = 0) := by
    rintro (h | h)
    exacts [hpa.ne' h, hpb.ne' h]
  constructor
  · intro hsmall
    simp only [execute_pairs_trade, calculate_position_size, if_neg hane,
      hfa, hfb, if_pos hsmall]
  · intro h1 h2 hsa hsb
    subst hsa
    subst hsb
    have hns : ¬(⌊equity * rf / pa⌋ < 1 ∨ ⌊equity * rf / pb⌋ < 1) := by
      rintro (h | h)
      exacts [absurd h1 (not_le.mpr h), absurd h2 (not_le.mpr h)]
    cases side <;>
      simp only [execute_pairs_trade, calculate_position_size, if_neg hane,
        hfa, hfb, if_neg hns, Bool.not_true, Bool.false_eq_true, if_false,
        List.map_cons, List.map_nil] <;>
      constructor <;> trivial

/-- Witness for C7, the spec's Scenario C: equity 10000, risk 2% ⇒ budget
200; price A 60 ⇒ 3 shares, price B 205 ⇒ 0 shares ⇒ failure, no orders. -/
theorem c7_position_sizing_witness :
    (0:ℚ) < 60 ∧ (0:ℚ) < 205 ∧ (0:ℚ) ≤ 10000 * (2/100)
    ∧ execute_pairs_trade "KO" "PEP" .short_spread
        (calculate_position_size 10000 (2/100)) (some 60) (some 205) true true
      = ⟨false, some .positionTooSmall, []⟩ := by
  refine ⟨by norm_num, by norm_num, by norm_num, ?_⟩
  exact (c7_position_sizing 10000 (2/100) 60 205 "KO" "PEP" .short_spread
    true true (by norm_num) (by norm_num) (by norm_num)).1 (Or.inr (by norm_num))

/-- An executor entry call only reports success when both legs' order
submissions returned normally (lines 320-325). -/
theorem execute_needs_both_submits (symA symB : String) (side : SpreadMode)
    (ps : ℚ) (pa pb : Option ℚ) (sa sb : Bool)
    (h : (execute_pairs_trade symA symB side ps pa pb sa sb).success = true) :
    sa = true ∧ sb = true := by
  unfold execute_pairs_trade at h
  cases pa with
  | none => exact Bool.noConfusion h
  | some x =>
    cases pb with
    | none => exact Bool.noConfusion h
    | some y =>
      dsimp only [] at h
      by_cases h0 : x = 0 ∨ y = 0
      · rw [if_pos h0] at h
        exact Bool.noConfusion h
      · rw [if_neg h0] at h
        by_cases hsm : truncQ (ps / x) < 1 ∨ truncQ (ps / y) < 1
        · rw [if_pos hsm] at h
          exact Bool.noConfusion h
        · rw [if_neg hsm] at h
          cases side <;> cases sa <;> cases sb <;> simp_all

/-- C1 evidence: a full cycle with an open LONG_SPREAD position and current
z-score -1 (still 0.5 standard deviations below the spec's long exit band)
is closed by the code, while the spec's evaluator (exit when
zScore ≥ -exitThreshold) says HOLD: the code's two exit comparisons are
swapped between the modes (lines 472 and 480). -/
theorem c1_exit_rule_divergence :
    calculate_spread_stats sqrt_on_four series_z_neg_one zeros60 60
        = some ⟨-2, some 0, some 2, -1⟩
    ∧ (run_cycle c1_env long_state).decision = Decision.exitPosition
    ∧ exit_signal Z_SCORE_EXIT .long_spread (-1) = true
    ∧ exit_signal_spec Z_SCORE_EXIT .long_spread (-1) = false := by
  refine ⟨?_, ?_, ?_, ?_⟩
  · norm_num [calculate_spread_stats, series_z_neg_one, zeros60, spread_series,
      rolling_mean_last, rolling_var_last, window_last, z_score_of, sqrt_on_four,
      List.replicate, List.zipWith]
  · norm_num [run_cycle, c1_env, long_state, calculate_spread_stats,
      series_z_neg_one, zeros60, spread_series, rolling_mean_last,
      rolling_var_last, window_last, z_score_of, sqrt_on_four, List.replicate,
      List.zipWith, trading_step, trading_step_with, exit_signal, Z_SCORE_EXIT,
      close_pairs_position, SYMBOL_A, SYMBOL_B, test_cointegration]
  · norm_num [exit_signal, Z_SCORE_EXIT]
  · norm_num [exit_signal_spec, Z_SCORE_EXIT]

/-- C2 counterexample: a full FLAT cycle in which the cointegration verdict
is `false` (p-value 1) yet, since the z-score is 2 ≥ entry threshold, the
code enters a short spread, submits both legs and persists the new state. -/
theorem c2_enters_despite_not_cointegrated :
    (test_cointegration c2_env.coint_pvalue).1 = false
    ∧ run_cycle c2_env initial_state
        = ⟨.enterShort,
           ⟨some .short_spread, some 2, some "t0", some "KO", some "PEP"⟩,
           [⟨some .short_spread, some 2, some "t0", some "KO", some "PEP"⟩],
           [⟨"KO", 4, .sell⟩, ⟨"PEP", 5, .buy⟩]⟩ := by
  constructor
  · norm_num [test_cointegration, c2_env]
  · norm_num [run_cycle, c2_env, initial_state, calculate_spread_stats,
      series_z_two, zeros60, spread_series, rolling_mean_last,
      rolling_var_last, window_last, z_score_of, sqrt_on_four, List.replicate,
      List.zipWith, trading_step, trading_step_with, exit_signal, Z_SCORE_EXIT,
      Z_SCORE_ENTRY, RISK_PER_TRADE, execute_pairs_trade,
      calculate_position_size, truncQ, SYMBOL_A, SYMBOL_B, test_cointegration]

/-- C2 amended: the cycle's decision, state transition, persistence and
orders are entirely independent of the cointegration verdict — the verdict
is only logged. -/
theorem c2_decision_ignores_cointegration (env : CycleEnv) (state : BotState)
    (p q : Option ℚ) :
    run_cycle { env with coint_pvalue := p } state
      = run_cycle { env with coint_pvalue := q } state := rfl

/-- C3 counterexample: a full exit cycle in which both closing submissions
raise, so zero closing orders reach the broker, yet the state transition to
FLAT is committed and persisted (lines 474-478 ignore the return value of
`close_pairs_position`). -/
theorem c3_exit_commits_despite_failed_closes :
    run_cycle c3_exit_env long_state
      = ⟨.exitPosition, ⟨none, none, none, some "KO", some "PEP"⟩,
         [⟨none, none, none, some "KO", some "PEP"⟩], []⟩ := by
  norm_num [run_cycle, c3_exit_env, long_state, calculate_spread_stats,
    zeros60, spread_series, rolling_mean_last, rolling_var_last, window_last,
    z_score_of, sqrt_on_four, List.replicate, List.zipWith, trading_step,
    trading_step_with, exit_signal, Z_SCORE_EXIT, close_pairs_position,
    SYMBOL_A, SYMBOL_B, test_cointegration]

/-- C3 amended: on the entry side the state transition is committed only if
both legs' submissions succeed (any submission failure leaves the state
unchanged and unpersisted, with no `PartialFillError` — the failure is only
logged and returned as `False`); on the exit side the transition to FLAT is
committed and persisted unconditionally, regardless of whether the closing
orders succeeded. -/
theorem c3_commit_discipline (env : CycleEnv) (state : BotState) (z : ℚ)
    (mode : SpreadMode) :
    ((env.has_position_a = false) → (env.has_position_b = false) →
      (env.submit_a_ok = false ∨ env.submit_b_ok = false) →
      (trading_step env state z).new_state = state
        ∧ (trading_step env state z).saved = [])
    ∧ ((env.has_position_a = true) → state.position = some mode →
      exit_signal Z_SCORE_EXIT mode z = true →
      (trading_step env state z).new_state.position = none
        ∧ (trading_step env state z).saved
            = [(trading_step env state z).new_state]) := by
  constructor
  · intro ha hb hsub
    have hfail : ∀ side : SpreadMode,
        (execute_pairs_trade SYMBOL_A SYMBOL_B side
          (calculate_position_size env.account_value RISK_PER_TRADE)
          env.price_a env.price_b env.submit_a_ok env.submit_b_ok).success
          = false := by
      intro side
      cases hres : (execute_pairs_trade SYMBOL_A SYMBOL_B side
          (calculate_position_size env.account_value RISK_PER_TRADE)
          env.price_a env.price_b env.submit_a_ok env.submit_b_ok).success with
      | false => rfl
      | true =>
        obtain ⟨hA, hB⟩ := execute_needs_both_submits _ _ _ _ _ _ _ _ hres
        rcases hsub with h | h
        · rw [hA] at h
          exact Bool.noConfusion h
        · rw [hB] at h
          exact Bool.noConfusion h
    unfold trading_step trading_step_with
    rw [ha, hb]
    simp only [Bool.or_self, Bool.false_eq_true, if_false]
    by_cases h1 : Z_SCORE_ENTRY ≤ z
    · rw [if_pos h1]
      simp only [hfail, Bool.false_eq_true, if_false]
      constructor <;> trivial
    · rw [if_neg h1]
      by_cases h2 : z ≤ -Z_SCORE_ENTRY
      · rw [if_pos h2]
        simp only [hfail, Bool.false_eq_true, if_false]
        constructor <;> trivial
      · rw [if_neg h2]
        constructor <;> trivial
  · intro ha hmode hsig
    unfold trading_step trading_step_with
    rw [ha, hmode]
    simp only [Bool.true_or, if_true, hsig]
    constructor <;> trivial

/-- Witness for the amended C3: concretely, a failed leg-B submission on
entry leaves the state untouched and unpersisted, and an exit with both
closing submissions failing still resets and persists the state. -/
theorem c3_commit_discipline_witness :
    ((trading_step c3_entry_env initial_state 3).new_state = initial_state
      ∧ (trading_step c3_entry_env initial_state 3).saved = [])
    ∧ ((trading_step c3_exit_env long_state 0).new_state.position = none
      ∧ (trading_step c3_exit_env long_state 0).saved
          = [(trading_step c3_exit_env long_state 0).new_state]) :=
  ⟨(c3_commit_discipline c3_entry_env initial_state 3 .long_spread).1
      rfl rfl (Or.inr rfl),
   (c3_commit_discipline c3_exit_env long_state 0 .long_spread).2
      rfl rfl (by norm_num [exit_signal, Z_SCORE_EXIT])⟩

/-- C4 counterexample: a full cycle in which the broker reports no open
positions while the persisted mode is LONG_SPREAD and the z-score is 0:
the code neither resets the mode to FLAT nor persists anything — the stale
LONG_SPREAD mode survives the whole cycle. -/
theorem c4_stale_state_not_reset :
    run_cycle c4_env long_state = ⟨.holdNoSignal, long_state, [], []⟩
    ∧ long_state.position ≠ none := by
  constructor
  · norm_num [run_cycle, c4_env, long_state, calculate_spread_stats, zeros60,
      spread_series, rolling_mean_last, rolling_var_last, window_last,
      z_score_of, sqrt_on_four, List.replicate, List.zipWith, trading_step,
      trading_step_with, Z_SCORE_ENTRY, test_cointegration]
  · simp [long_state]

/-- C4 amended: there is no reconciliation step — when the broker reports
no open positions the bot goes straight to entry evaluation, and with no
entry signal the cycle ends with the persisted state (FLAT or not)
untouched and nothing written; a stale non-FLAT mode is only ever
overwritten by a later successful entry. -/
theorem c4_no_reconciliation_reset (env : CycleEnv) (state : BotState) (z : ℚ)
    (ha : env.has_position_a = false) (hb : env.has_position_b = false)
    (hlo : -Z_SCORE_ENTRY < z) (hhi : z < Z_SCORE_ENTRY) :
    trading_step env state z = ⟨.holdNoSignal, state, [], []⟩ := by
  unfold trading_step trading_step_with
  rw [ha, hb]
  simp only [Bool.or_self, Bool.false_eq_true, if_false]
  rw [if_neg (not_le.mpr hhi), if_neg (not_le.mpr hlo)]

/-- Witness for the amended C4: stale SHORT_SPREAD state, flat broker,
z-score 0 — the state passes through unchanged and nothing is saved. -/
theorem c4_no_reconciliation_reset_witness :
    c4_env.has_position_a = false ∧ c4_env.has_position_b = false
    ∧ -Z_SCORE_ENTRY < (0:ℚ) ∧ (0:ℚ) < Z_SCORE_ENTRY
    ∧ trading_step c4_env short_state 0 = ⟨.holdNoSignal, short_state, [], []⟩ :=
  ⟨rfl, rfl, by norm_num [Z_SCORE_ENTRY], by norm_num [Z_SCORE_ENTRY],
   c4_no_reconciliation_reset c4_env short_state 0 rfl rfl
     (by norm_num [Z_SCORE_ENTRY]) (by norm_num [Z_SCORE_ENTRY])⟩

/-- C8 counterexample: running the trading logic with a degenerate
configuration (entryThreshold 0.5 ≤ exitThreshold 2) does not fail fast —
there is no validation anywhere and no `InvalidThresholdConfig`; the engine
simply trades (here entering short at z-score 1 and placing both orders). -/
theorem c8_no_threshold_validation :
    ¬ ((1:ℚ)/2 > 2)
    ∧ (trading_step_with (1/2) 2 c4_env initial_state 1).decision
        = Decision.enterShort
    ∧ (trading_step_with (1/2) 2 c4_env initial_state 1).orders
        = [⟨"KO", 4, .sell⟩, ⟨"PEP", 5, .buy⟩] := by
  refine ⟨by norm_num, ?_, ?_⟩ <;>
    norm_num [trading_step_with, c4_env, initial_state, execute_pairs_trade,
      calculate_position_size, truncQ, RISK_PER_TRADE, SYMBOL_A, SYMBOL_B]

/-- C8 amended: the thresholds are hard-coded constants (2.0 and 0.5) that
do satisfy entryThreshold > exitThreshold, and the trading logic always
runs with exactly these constants; no load-time validation exists. -/
theorem c8_hardcoded_thresholds :
    Z_SCORE_ENTRY > Z_SCORE_EXIT
    ∧ ∀ env state z, trading_step env state z
        = trading_step_with Z_SCORE_ENTRY Z_SCORE_EXIT env state z :=
  ⟨by norm_num [Z_SCORE_ENTRY, Z_SCORE_EXIT], fun _ _ _ => rfl⟩

end PairsTrading
